import Mathlib

/-!
Verification of the hostel-management repository (schema + triggers in
`database/seed.sql`, route handlers under `src/app/api`).

The database tables are embedded as Lean structures, each SQL statement a
route issues (together with the triggers and constraints it fires) as a
function on the database state.  PostgreSQL statements are atomic: a
statement that violates a constraint or raises in a trigger leaves the
state unchanged, which the embedding models by `Except` results that the
route handlers recover from exactly as the TypeScript code does.
-/

set_option autoImplicit false

namespace HostelMgmt

/-- `gender_type` enum from schema.sql. -/
inductive Gender
  | male
  | female
  | other
deriving DecidableEq, Repr, BEq

/-- `complaint_status` enum from schema.sql. -/
inductive CStatus
  | open_
  | assigned
  | in_progress
  | resolved
  | closed
deriving DecidableEq, Repr, BEq

/-- `complaint_category` enum from schema.sql. -/
inductive Category
  | electrical
  | plumbing
  | furniture
  | cleaning
  | pest_control
  | internet
  | security
  | other
deriving DecidableEq, Repr, BEq

instance : LawfulBEq Gender where
  eq_of_beq := by
    intro a b h
    cases a <;> cases b <;> first | rfl | exact absurd h (by decide)
  rfl := by
    intro a
    cases a <;> rfl

instance : LawfulBEq CStatus where
  eq_of_beq := by
    intro a b h
    cases a <;> cases b <;> first | rfl | exact absurd h (by decide)
  rfl := by
    intro a
    cases a <;> rfl

instance : LawfulBEq Category where
  eq_of_beq := by
    intro a b h
    cases a <;> cases b <;> first | rfl | exact absurd h (by decide)
  rfl := by
    intro a
    cases a <;> rfl

/-- Row of the `hostels` table (the columns the routes and triggers read). -/
structure Hostel where
  id : Nat
  genderAllowed : Gender
deriving DecidableEq, Repr

/-- Row of the `rooms` table (the columns the routes and triggers read). -/
structure Room where
  id : Nat
  hostelId : Nat
  capacity : Int
  currentOccupancy : Int
  isAvailable : Bool
deriving DecidableEq, Repr

/-- Row of the `students` table (the columns the routes read). -/
structure Student where
  id : Nat
  gender : Gender
  isActive : Bool
deriving DecidableEq, Repr

/-- Row of the `allocations` table (the columns the routes and triggers read;
dates are modelled as natural numbers). -/
structure Allocation where
  id : Nat
  studentId : Nat
  roomId : Nat
  isActive : Bool
  expectedCheckout : Option Nat
  actualCheckout : Option Nat
deriving DecidableEq, Repr

/-- Row of the `maintenance_staff` table (the columns the routes read). -/
structure Staff where
  id : Nat
  isAvailable : Bool
deriving DecidableEq, Repr

/-- Row of the `complaints` table (the columns the routes and triggers
touch; timestamps are modelled as natural numbers). -/
structure Complaint where
  id : Nat
  studentId : Nat
  roomId : Nat
  category : Category
  priority : Int
  status : CStatus
  assignedStaffId : Option Nat
  resolutionNotes : Option String
  assignedAt : Option Nat
  resolvedAt : Option Nat
  closedAt : Option Nat
deriving DecidableEq, Repr

/-- Row of the `complaint_logs` audit table. -/
structure CLog where
  complaintId : Nat
  oldStatus : Option CStatus
  newStatus : CStatus
  changedBy : String
  note : Option String
  changedAt : Nat
deriving DecidableEq, Repr

/-- The persisted database state. -/
structure Db where
  hostels : List Hostel
  rooms : List Room
  students : List Student
  allocations : List Allocation
  staff : List Staff
  complaints : List Complaint
  complaintLogs : List CLog
deriving DecidableEq, Repr

/-- Errors a single SQL statement can raise (trigger exceptions and
constraint violations); the statement is rolled back whole. -/
inductive DbErr
  | roomFull
  | uniqueViolation
  | checkViolation
  | fkViolation
deriving DecidableEq, Repr

/-- The `rooms` CHECK constraints from schema.sql:
`capacity > 0 AND capacity <= 10`, `current_occupancy >= 0`, and
`check_occupancy CHECK (current_occupancy <= capacity)`. -/
def Room.checkOk (r : Room) : Bool :=
  0 < r.capacity && r.capacity ≤ 10 && 0 ≤ r.currentOccupancy
    && r.currentOccupancy ≤ r.capacity

/-- The occupancy bounds `0 ≤ current_occupancy ≤ capacity` for one room. -/
def Room.boundsOk (r : Room) : Bool :=
  0 ≤ r.currentOccupancy && r.currentOccupancy ≤ r.capacity

/-- The occupancy bounds hold for every room of the state. -/
def roomBoundsOk (db : Db) : Bool :=
  db.rooms.all Room.boundsOk

/-- SQL `GREATEST(0, n)`. -/
def greatest0 (n : Int) : Int :=
  if n < 0 then 0 else n

/-- The rooms table after `UPDATE rooms SET current_occupancy = f(...)
WHERE id = rid`. -/
def roomsAfterOcc (db : Db) (rid : Nat) (f : Int → Int) : List Room :=
  db.rooms.map fun r =>
    if r.id == rid then { r with currentOccupancy := f r.currentOccupancy } else r

/-- `UPDATE rooms SET current_occupancy = f(current_occupancy) WHERE id = rid`:
the updated rows must pass the table's CHECK constraints or the whole
statement fails. -/
def updateRoomOcc (db : Db) (rid : Nat) (f : Int → Int) : Except DbErr Db :=
  if ((roomsAfterOcc db rid f).filter fun r => r.id == rid).all Room.checkOk then
    .ok { db with rooms := roomsAfterOcc db rid f }
  else
    .error .checkViolation

/-- `SELECT ... FROM rooms r WHERE r.id = rid` (no availability filter). -/
def findRoom (db : Db) (rid : Nat) : Option Room :=
  db.rooms.find? fun r => r.id == rid

/-- `SELECT id FROM allocations WHERE student_id = sid AND is_active = TRUE`
is non-empty. -/
def hasActiveAllocation (db : Db) (sid : Nat) : Bool :=
  db.allocations.any fun a => a.studentId == sid && a.isActive

/-- Number of allocation rows with `is_active = true` for a student. -/
def activeCount (db : Db) (sid : Nat) : Nat :=
  (db.allocations.filter fun a => a.studentId == sid && a.isActive).length

/-- Boolean form of the `idx_one_active_allocation` partial-uniqueness
property: every active allocation is its student's only active one. -/
def oneActivePerStudentB (db : Db) : Bool :=
  db.allocations.all fun a => !a.isActive || activeCount db a.studentId ≤ 1

/-- Next value of the `allocations.id` SERIAL sequence (modelled as one more
than the largest id in use). -/
def nextAllocId (db : Db) : Nat :=
  db.allocations.foldl (fun m a => max m a.id) 0 + 1

/-- The occupancy update done by the deactivation branch of the
`check_room_capacity` trigger:
`current_occupancy = GREATEST(0, current_occupancy - 1)` on the room row. -/
def releaseRoomSlot (db : Db) (rid : Nat) : Db :=
  { db with rooms := db.rooms.map fun r =>
      if r.id == rid then { r with currentOccupancy := greatest0 (r.currentOccupancy - 1) } else r }

/-- `INSERT INTO allocations (student_id, room_id, ..., is_active) VALUES ...`
as one atomic statement: the BEFORE INSERT `check_room_capacity` trigger
(which raises if the room is full and otherwise increments the room's
occupancy), the foreign keys, and the `idx_one_active_allocation` partial
unique index. -/
def insertAllocation (db : Db) (aid sid rid : Nat) (active : Bool)
    (expected : Option Nat) : Except DbErr Db :=
  match findRoom db rid with
  | none => .error .fkViolation
  | some room =>
    if (db.students.find? fun s => s.id == sid).isNone then .error .fkViolation
    else
      let newAlloc : Allocation :=
        { id := aid, studentId := sid, roomId := rid, isActive := active,
          expectedCheckout := expected, actualCheckout := none }
      if active then
        if room.capacity ≤ room.currentOccupancy then .error .roomFull
        else if hasActiveAllocation db sid then .error .uniqueViolation
        else
          match updateRoomOcc db rid (fun n => n + 1) with
          | .error e => .error e
          | .ok db1 => .ok { db1 with allocations := db1.allocations ++ [newAlloc] }
      else .ok { db with allocations := db.allocations ++ [newAlloc] }

/-- `UPDATE allocations SET is_active = FALSE, actual_checkout = CURRENT_DATE
WHERE student_id = sid AND is_active = TRUE`; the `check_room_capacity`
trigger fires per affected row and decrements that room's occupancy. -/
def deactivateStudentAllocations (db : Db) (sid : Nat) (today : Nat) : Db :=
  let affected := db.allocations.filter fun a => a.studentId == sid && a.isActive
  let db1 := affected.foldl (fun d a => releaseRoomSlot d a.roomId) db
  { db1 with allocations := db1.allocations.map fun a =>
      if a.studentId == sid && a.isActive then
        { a with isActive := false, actualCheckout := some today }
      else a }

/-- `UPDATE allocations SET is_active = FALSE, actual_checkout = CURRENT_DATE
WHERE id = aid`; the trigger decrements the room's occupancy when the row
was active. -/
def deactivateAllocationById (db : Db) (aid : Nat) (today : Nat) : Db :=
  match db.allocations.find? (fun a => a.id == aid) with
  | none => db
  | some a =>
    if a.isActive then
      let db1 := releaseRoomSlot db a.roomId
      { db1 with allocations := db1.allocations.map fun x =>
          if x.id == aid then { x with isActive := false, actualCheckout := some today } else x }
    else
      { db with allocations := db.allocations.map fun x =>
          if x.id == aid then { x with actualCheckout := some today } else x }

/-- The application-level
`UPDATE rooms SET current_occupancy = current_occupancy + 1 WHERE id = rid`
issued by POST /api/allocations after its INSERT. -/
def incRoomOccupancyStmt (db : Db) (rid : Nat) : Except DbErr Db :=
  updateRoomOcc db rid (fun n => n + 1)

/-- The application-level
`UPDATE rooms SET current_occupancy = GREATEST(0, current_occupancy - 1)
WHERE id = rid` issued by DELETE /api/allocations/[id]. -/
def decRoomOccupancyStmt (db : Db) (rid : Nat) : Db :=
  releaseRoomSlot db rid

/-- `UPDATE allocations SET expected_checkout = ... WHERE id = aid`
(PUT /api/allocations/[id]; only metadata columns, `is_active` untouched). -/
def updateAllocationMeta (db : Db) (aid : Nat) (expected : Option Nat) : Db :=
  { db with allocations := db.allocations.map fun a =>
      if a.id == aid then { a with expectedCheckout := expected } else a }

/-! ### The allocation route handlers -/

/-- Error kinds of POST /api/allocations (the distinct 400 responses). -/
inductive AllocErr
  | studentNotFound
  | roomNotFound
  | roomFull
  | genderMismatch
deriving DecidableEq, Repr

/-- Outcome of POST /api/allocations: HTTP 201 with the new allocation id,
an HTTP 400 with a specific error, or the HTTP 500 of the catch block. -/
inductive AllocOutcome
  | created (allocId : Nat)
  | badRequest (e : AllocErr)
  | internalError
deriving DecidableEq, Repr

/-- The room query of POST /api/allocations:
`SELECT r.id, r.capacity, r.current_occupancy, h.gender_allowed FROM rooms r
INNER JOIN hostels h ON r.hostel_id = h.id
WHERE r.id = $1 AND r.is_available = TRUE`. -/
def roomJoin (db : Db) (rid : Nat) : Option (Room × Hostel) :=
  match db.rooms.find? (fun r => r.id == rid && r.isAvailable) with
  | none => none
  | some r =>
    match db.hostels.find? (fun h => h.id == r.hostelId) with
    | none => none
    | some h => some (r, h)

/-- POST /api/allocations.  Each `query` call is its own auto-committed
statement; there is no wrapping transaction, so a failing later statement
leaves the effects of earlier ones in place (the route then answers 500). -/
def allocationsPOST (db : Db) (today studentId roomId : Nat)
    (expected : Option Nat) : AllocOutcome × Db :=
  match db.students.find? (fun s => s.id == studentId && s.isActive) with
  | none => (.badRequest .studentNotFound, db)
  | some student =>
    match roomJoin db roomId with
    | none => (.badRequest .roomNotFound, db)
    | some (room, h) =>
      if room.capacity ≤ room.currentOccupancy then (.badRequest .roomFull, db)
      else if h.genderAllowed != Gender.other && student.gender != h.genderAllowed then
        (.badRequest .genderMismatch, db)
      else
        let db1 := if hasActiveAllocation db studentId then
          deactivateStudentAllocations db studentId today else db
        let aid := nextAllocId db1
        match insertAllocation db1 aid studentId roomId true expected with
        | .error _ => (.internalError, db1)
        | .ok db2 =>
          match incRoomOccupancyStmt db2 roomId with
          | .error _ => (.internalError, db2)
          | .ok db3 => (.created aid, db3)

/-- Outcome of DELETE /api/allocations/[id] (checkout). -/
inductive CheckoutOutcome
  | ok200
  | notFound404
  | alreadyInactive400
deriving DecidableEq, Repr

/-- DELETE /api/allocations/[id]: read the allocation, reject if absent or
already inactive, else deactivate it (trigger decrements occupancy) and then
issue the explicit `GREATEST(0, current_occupancy - 1)` update. -/
def checkoutDELETE (db : Db) (today aid : Nat) : CheckoutOutcome × Db :=
  match db.allocations.find? (fun a => a.id == aid) with
  | none => (.notFound404, db)
  | some a =>
    if !a.isActive then (.alreadyInactive400, db)
    else
      let db1 := deactivateAllocationById db aid today
      let db2 := decRoomOccupancyStmt db1 a.roomId
      (.ok200, db2)

/-! ### The complaint triggers and route handlers -/

/-- Next value of the `complaints.id` SERIAL sequence. -/
def nextComplaintId (db : Db) : Nat :=
  db.complaints.foldl (fun m c => max m c.id) 0 + 1

/-- The note the `log_complaint_status_change` trigger derives for a status
change (the CASE expression over the new row). -/
def derivedNote (c : Complaint) : Option String :=
  if c.status == CStatus.assigned then
    some ("Assigned to staff ID: " ++ (match c.assignedStaffId with
      | some n => toString n
      | none => "N/A"))
  else if c.status == CStatus.resolved then
    some ("Resolution: " ++ (match c.resolutionNotes with
      | some s => s
      | none => "No notes"))
  else none

/-- The `log_complaint_status_change` trigger function (BEFORE UPDATE ON
complaints): when the status actually changed it appends one audit row and
stamps the timestamp matching the new status; otherwise it does nothing
beyond `updated_at`.  Returns the row as stored plus the appended logs. -/
def logComplaintStatusChange (now : Nat) (oldC newC : Complaint) :
    Complaint × List CLog :=
  if oldC.status != newC.status then
    let entry : CLog :=
      { complaintId := newC.id, oldStatus := some oldC.status,
        newStatus := newC.status, changedBy := "system",
        note := derivedNote newC, changedAt := now }
    let c1 :=
      if newC.status == CStatus.assigned && oldC.status != CStatus.assigned then
        { newC with assignedAt := some now }
      else if newC.status == CStatus.resolved && oldC.status != CStatus.resolved then
        { newC with resolvedAt := some now }
      else if newC.status == CStatus.closed && oldC.status != CStatus.closed then
        { newC with closedAt := some now }
      else newC
    (c1, [entry])
  else (newC, [])

/-- Outcome of POST /api/complaints. -/
inductive ComplaintPostOutcome
  | created (cid : Nat) (priority : Int)
  | validationError
  | studentNotFound
  | roomNotFound
deriving DecidableEq, Repr

/-- JavaScript `priority || 3` on a number-or-absent value: `undefined`,
`null` and `0` are falsy and yield the default `3`. -/
def jsOrDefault3 (p : Option Int) : Int :=
  match p with
  | none => 3
  | some v => if v == 0 then 3 else v

/-- POST /api/complaints with an already well-typed category (the route's
`validCategories.includes` check makes invalid categories unrepresentable
here).  The INSERT carries the AFTER INSERT `log_complaint_creation`
trigger, which appends one audit row with a null old status. -/
def complaintsPOST (db : Db) (now sid rid : Nat) (category : Category)
    (priority : Option Int) : ComplaintPostOutcome × Db :=
  let finalPriority := jsOrDefault3 priority
  if finalPriority < 1 ∨ 5 < finalPriority then (.validationError, db)
  else
    match db.students.find? (fun s => s.id == sid && s.isActive) with
    | none => (.studentNotFound, db)
    | some _ =>
      match db.rooms.find? (fun r => r.id == rid) with
      | none => (.roomNotFound, db)
      | some _ =>
        let cid := nextComplaintId db
        let c : Complaint :=
          { id := cid, studentId := sid, roomId := rid, category := category,
            priority := finalPriority, status := CStatus.open_,
            assignedStaffId := none, resolutionNotes := none,
            assignedAt := none, resolvedAt := none, closedAt := none }
        let creationLog : CLog :=
          { complaintId := cid, oldStatus := none, newStatus := CStatus.open_,
            changedBy := "system", note := some "Complaint created", changedAt := now }
        (.created cid finalPriority,
          { db with complaints := db.complaints ++ [c],
                    complaintLogs := db.complaintLogs ++ [creationLog] })

/-- Body of PUT /api/complaints/[id].  `none` is an absent (undefined)
field; for the nullable fields the inner `Option` is SQL null. -/
structure ComplaintPutBody where
  status : Option CStatus := none
  staffField : Option (Option Nat) := none
  resolutionNotes : Option (Option String) := none
  priority : Option Int := none
deriving DecidableEq, Repr

/-- JavaScript truthiness of the request's `assigned_staff_id`:
`undefined`, `null` and `0` are falsy. -/
def staffTruthy (f : Option (Option Nat)) : Bool :=
  match f with
  | some (some n) => n != 0
  | _ => false

/-- JavaScript falsiness of the stored `assigned_staff_id` (`null` or `0`). -/
def optStaffFalsy (f : Option Nat) : Bool :=
  match f with
  | some n => n == 0
  | none => true

/-- Outcome of PUT /api/complaints/[id]. -/
inductive PutOutcome
  | ok200
  | notFound404
  | missingAssignment
  | staffUnavailable
  | invalidPriority
  | noFields
deriving DecidableEq, Repr

/-- `SELECT * FROM complaints WHERE id = cid`. -/
def getComplaint (db : Db) (cid : Nat) : Option Complaint :=
  db.complaints.find? fun c => c.id == cid

/-- Whether PUT /api/complaints/[id] pushes a `status = ...` assignment:
`status && status !== existing.status`. -/
def wantsStatusChange (existing : Complaint) (body : ComplaintPutBody) : Bool :=
  match body.status with
  | some st => st != existing.status
  | none => false

/-- The row PUT /api/complaints/[id] sends in its final UPDATE statement
(before the BEFORE UPDATE trigger runs): the dynamic `updates` list applied
to the stored row, including the auto-advance to `assigned` when a truthy
staff id arrives while the complaint is `open` and no status was given. -/
def putNewComplaint (existing : Complaint) (body : ComplaintPutBody) : Complaint :=
  let newStaff := match body.staffField with
    | some v => v
    | none => existing.assignedStaffId
  let autoAssign := staffTruthy body.staffField
    && existing.status == CStatus.open_ && body.status == none
  let newStatus :=
    match body.status with
    | some st => if st != existing.status then st else existing.status
    | none => if autoAssign then CStatus.assigned else existing.status
  let newNotes := match body.resolutionNotes with
    | some v => v
    | none => existing.resolutionNotes
  let newPriority := match body.priority with
    | some p => p
    | none => existing.priority
  { existing with
      status := newStatus, assignedStaffId := newStaff,
      resolutionNotes := newNotes, priority := newPriority }

/-- PUT /api/complaints/[id].  Mirrors the route's dynamic update builder:
the status is pushed only when it differs from the stored one, and the
single final UPDATE fires the `log_complaint_status_change` trigger. -/
def complaintsPUT (db : Db) (now cid : Nat) (body : ComplaintPutBody) :
    PutOutcome × Db :=
  match getComplaint db cid with
  | none => (.notFound404, db)
  | some existing =>
    if wantsStatusChange existing body && body.status == some CStatus.assigned
        && !staffTruthy body.staffField && optStaffFalsy existing.assignedStaffId then
      (.missingAssignment, db)
    else if (match body.staffField with
      | some (some n) => (db.staff.find? fun (st : Staff) => st.id == n && st.isAvailable).isNone
      | some none => false
      | none => false) then
      (.staffUnavailable, db)
    else if (match body.priority with
      | some p => decide (p < 1 ∨ 5 < p)
      | none => false) then
      (.invalidPriority, db)
    else if !(wantsStatusChange existing body || body.staffField.isSome
        || body.resolutionNotes.isSome || body.priority.isSome) then
      (.noFields, db)
    else
      let res := logComplaintStatusChange now existing (putNewComplaint existing body)
      (.ok200,
        { db with
            complaints := db.complaints.map fun (c : Complaint) =>
              if c.id == cid then res.1 else c,
            complaintLogs := db.complaintLogs ++ res.2 })

/-! ### Analytics computations -/

/-- Category percentage from GET /api/analytics/categories:
`totalComplaints > 0 ? Math.round((total / totalComplaints) * 100) : 0`
(JavaScript `Math.round` is round-half-up, matching `round`). -/
def categoryPercentage (total totalComplaints : Nat) : ℚ :=
  if 0 < totalComplaints then
    ((round (((total : ℚ) / (totalComplaints : ℚ)) * 100) : ℤ) : ℚ)
  else 0

/-- Occupancy rate from GET /api/analytics/rooms:
`cap > 0 ? Math.round((occ / cap) * 100 * 100) / 100 : 0`. -/
def occupancyRate (occ cap : ℚ) : ℚ :=
  if 0 < cap then ((round ((occ / cap) * 100 * 100) : ℤ) : ℚ) / 100 else 0

/-- Monthly resolution rate from GET /api/analytics/trends:
`CASE WHEN COUNT(*) > 0 THEN ROUND(resolved::numeric / COUNT(*) * 100, 2)
ELSE 0 END`. -/
def resolutionRate (resolvedClosed total : Nat) : ℚ :=
  if 0 < total then
    ((round (((resolvedClosed : ℚ) / (total : ℚ)) * 100 * 100) : ℤ) : ℚ) / 100
  else 0

/-- `COALESCE(SUM(r.capacity), 0)` over the rooms of the state. -/
def totalCapacity (db : Db) : ℚ :=
  (db.rooms.map fun r => (r.capacity : ℚ)).sum

/-- `COALESCE(SUM(r.current_occupancy), 0)` over the rooms of the state. -/
def totalOccupancy (db : Db) : ℚ :=
  (db.rooms.map fun r => (r.currentOccupancy : ℚ)).sum

/-- `overall_occupancy_rate` of GET /api/analytics/rooms. -/
def overallOccupancyRate (db : Db) : ℚ :=
  occupancyRate (totalOccupancy db) (totalCapacity db)

/-! ### The statement-level step machine

Every write the allocation routes perform on the `rooms` and `allocations`
tables is one of the statements below; a route execution is a sequence of
them, so every state visible mid-way through a route is reached by a prefix
of that sequence.  A statement that fails (trigger exception or constraint
violation) is rolled back whole and leaves the state unchanged. -/

/-- The SQL statements the routes issue against `rooms`/`allocations`. -/
inductive Stmt
  | insertAlloc (aid sid rid : Nat) (active : Bool) (expected : Option Nat)
  | deactivateStudent (sid today : Nat)
  | deactivateById (aid today : Nat)
  | incOcc (rid : Nat)
  | decOcc (rid : Nat)
  | allocMeta (aid : Nat) (expected : Option Nat)
deriving DecidableEq, Repr

/-- Execute one statement; a failing statement leaves the state unchanged. -/
def execStmt (db : Db) : Stmt → Db
  | .insertAlloc aid sid rid active expected =>
    match insertAllocation db aid sid rid active expected with
    | .ok db' => db'
    | .error _ => db
  | .deactivateStudent sid today => deactivateStudentAllocations db sid today
  | .deactivateById aid today => deactivateAllocationById db aid today
  | .incOcc rid =>
    match incRoomOccupancyStmt db rid with
    | .ok db' => db'
    | .error _ => db
  | .decOcc rid => decRoomOccupancyStmt db rid
  | .allocMeta aid expected => updateAllocationMeta db aid expected

/-- Run a sequence of statements. -/
def runStmts (db : Db) (l : List Stmt) : Db :=
  l.foldl execStmt db

/-- `db` is reached from `db0` by some sequence of route statements
(prefixes of route executions included). -/
def Reachable (db0 db : Db) : Prop :=
  ∃ l : List Stmt, db = runStmts db0 l

/-! ### Concrete states used by the witnesses and counterexamples -/

/-- Two empty double rooms in a male hostel and one active male student. -/
def exDbTwoRooms : Db :=
  { hostels := [{ id := 1, genderAllowed := .male }],
    rooms := [{ id := 1, hostelId := 1, capacity := 2, currentOccupancy := 0, isAvailable := true },
              { id := 2, hostelId := 1, capacity := 2, currentOccupancy := 0, isAvailable := true }],
    students := [{ id := 1, gender := .male, isActive := true }],
    allocations := [], staff := [], complaints := [], complaintLogs := [] }

/-- First assignment of the student to room 1. -/
def exRun1 : AllocOutcome × Db := allocationsPOST exDbTwoRooms 0 1 1 none

/-- Re-assignment of the same student to room 2. -/
def exRun2 : AllocOutcome × Db := allocationsPOST exRun1.2 1 1 2 none

/-- A full double room (seed-style state: occupancy maintained by the
trigger alone) with two active allocations. -/
def exDbFullRoom : Db :=
  { hostels := [{ id := 1, genderAllowed := .male }],
    rooms := [{ id := 1, hostelId := 1, capacity := 2, currentOccupancy := 2, isAvailable := true }],
    students := [{ id := 1, gender := .male, isActive := true },
                 { id := 2, gender := .male, isActive := true }],
    allocations := [{ id := 1, studentId := 1, roomId := 1, isActive := true,
                      expectedCheckout := none, actualCheckout := none },
                    { id := 2, studentId := 2, roomId := 1, isActive := true,
                      expectedCheckout := none, actualCheckout := none }],
    staff := [], complaints := [], complaintLogs := [] }

/-- First checkout of allocation 1. -/
def exCheckout1 : CheckoutOutcome × Db := checkoutDELETE exDbFullRoom 9 1

/-- Second checkout of the same allocation. -/
def exCheckout2 : CheckoutOutcome × Db := checkoutDELETE exCheckout1.2 9 1

/-- One open complaint and one available staff member. -/
def exDbComplaint : Db :=
  { hostels := [], rooms := [], students := [], allocations := [],
    staff := [{ id := 1, isAvailable := true }],
    complaints := [{ id := 1, studentId := 1, roomId := 1, category := .electrical,
                     priority := 2, status := .open_, assignedStaffId := none,
                     resolutionNotes := none, assignedAt := none, resolvedAt := none,
                     closedAt := none }],
    complaintLogs := [] }

/-- open → assigned at time 10. -/
def exC6a : Db :=
  (complaintsPUT exDbComplaint 10 1 { status := some .assigned, staffField := some (some 1) }).2

/-- assigned → open at time 20. -/
def exC6b : Db := (complaintsPUT exC6a 20 1 { status := some .open_ }).2

/-- open → assigned again at time 30. -/
def exC6c : Db := (complaintsPUT exC6b 30 1 { status := some .assigned }).2

/-- A resolved complaint that has staff 5 assigned. -/
def exDbResolved : Db :=
  { hostels := [], rooms := [], students := [], allocations := [],
    staff := [{ id := 5, isAvailable := true }],
    complaints := [{ id := 1, studentId := 1, roomId := 1, category := .plumbing,
                     priority := 3, status := .resolved, assignedStaffId := some 5,
                     resolutionNotes := none, assignedAt := some 1, resolvedAt := some 2,
                     closedAt := none }],
    complaintLogs := [] }

/-- Request that sets status `assigned` while explicitly nulling the staff. -/
def exC8run : PutOutcome × Db :=
  complaintsPUT exDbResolved 10 1 { status := some .assigned, staffField := some none }

/-- One active student and one room, no complaints yet. -/
def exDbForComplaints : Db :=
  { hostels := [{ id := 1, genderAllowed := .other }],
    rooms := [{ id := 1, hostelId := 1, capacity := 2, currentOccupancy := 0, isAvailable := true }],
    students := [{ id := 1, gender := .male, isActive := true }],
    allocations := [], staff := [], complaints := [], complaintLogs := [] }

/-- Complaint creation with the out-of-range priority 0. -/
def exC9run : ComplaintPostOutcome × Db :=
  complaintsPOST exDbForComplaints 0 1 1 .electrical (some 0)

/-- The empty database. -/
def exDbEmpty : Db :=
  { hostels := [], rooms := [], students := [], allocations := [],
    staff := [], complaints := [], complaintLogs := [] }

/-- A stored open complaint row. -/
def exComplaintOpen : Complaint :=
  { id := 1, studentId := 1, roomId := 1, category := .electrical,
    priority := 2, status := .open_, assignedStaffId := none,
    resolutionNotes := none, assignedAt := none, resolvedAt := none,
    closedAt := none }

/-- The same row as sent by an UPDATE that sets status `assigned`. -/
def exComplaintAssigned : Complaint :=
  { exComplaintOpen with status := .assigned, assignedStaffId := some 1 }

/-! ## Helper lemmas -/

theorem checkOk_boundsOk (r : Room) (h : r.checkOk = true) : r.boundsOk = true := by
  simp only [Room.checkOk, Bool.and_eq_true, decide_eq_true_eq] at h
  simp only [Room.boundsOk, Bool.and_eq_true, decide_eq_true_eq]
  exact ⟨h.1.2, h.2⟩

theorem boundsOk_release (r : Room) (hb : r.boundsOk = true) :
    Room.boundsOk { r with currentOccupancy := greatest0 (r.currentOccupancy - 1) } = true := by
  simp only [Room.boundsOk, Bool.and_eq_true, decide_eq_true_eq] at hb ⊢
  unfold greatest0
  split <;> omega

theorem roomBoundsOk_releaseRoomSlot (db : Db) (rid : Nat) (h : roomBoundsOk db = true) :
    roomBoundsOk (releaseRoomSlot db rid) = true := by
  simp only [roomBoundsOk, releaseRoomSlot, List.all_eq_true] at h ⊢
  intro r hr
  obtain ⟨r0, hr0, rfl⟩ := List.mem_map.mp hr
  by_cases h0 : (r0.id == rid) = true
  · rw [if_pos h0]
    exact boundsOk_release r0 (h r0 hr0)
  · rw [if_neg h0]
    exact h r0 hr0

theorem roomBoundsOk_updateRoomOcc (db db' : Db) (rid : Nat) (f : Int → Int)
    (h : roomBoundsOk db = true) (hu : updateRoomOcc db rid f = .ok db') :
    roomBoundsOk db' = true := by
  unfold updateRoomOcc at hu
  split at hu
  case isTrue hall =>
    cases hu
    simp only [roomBoundsOk, roomsAfterOcc, List.all_eq_true] at h ⊢
    intro r hr
    obtain ⟨r0, hr0, rfl⟩ := List.mem_map.mp hr
    by_cases h0 : (r0.id == rid) = true
    · rw [if_pos h0]
      apply checkOk_boundsOk
      refine List.all_eq_true.mp hall _ (List.mem_filter.mpr ⟨?_, ?_⟩)
      · exact List.mem_map.mpr ⟨r0, hr0, by rw [if_pos h0]⟩
      · simpa using h0
    · rw [if_neg h0]
      exact h r0 hr0
  case isFalse => cases hu

theorem updateRoomOcc_ok_allocations (db db' : Db) (rid : Nat) (f : Int → Int)
    (hu : updateRoomOcc db rid f = .ok db') : db'.allocations = db.allocations := by
  unfold updateRoomOcc at hu
  split at hu
  · cases hu; rfl
  · cases hu

theorem insertAllocation_ok (db db' : Db) (aid sid rid : Nat) (active : Bool)
    (expected : Option Nat)
    (hu : insertAllocation db aid sid rid active expected = .ok db') :
    (active = true ∧ hasActiveAllocation db sid = false ∧
      ∃ db1, updateRoomOcc db rid (fun n => n + 1) = .ok db1 ∧
        db' = { db1 with allocations := db1.allocations ++
          [{ id := aid, studentId := sid, roomId := rid, isActive := active,
             expectedCheckout := expected, actualCheckout := none }] })
    ∨ (active = false ∧
        db' = { db with allocations := db.allocations ++
          [{ id := aid, studentId := sid, roomId := rid, isActive := active,
             expectedCheckout := expected, actualCheckout := none }] }) := by
  unfold insertAllocation at hu
  split at hu
  · cases hu
  · split at hu
    · cases hu
    · split at hu
      · rename_i hactive
        split at hu
        · cases hu
        · split at hu
          · cases hu
          · rename_i hfull hno
            split at hu
            · cases hu
            · rename_i db1 heq
              cases hu
              exact Or.inl ⟨hactive, by simpa using hno, db1, heq, rfl⟩
      · rename_i hactive
        cases hu
        exact Or.inr ⟨by simpa using hactive, rfl⟩

theorem foldl_release_bounds (l : List Allocation) (db : Db)
    (h : roomBoundsOk db = true) :
    roomBoundsOk (l.foldl (fun d a => releaseRoomSlot d a.roomId) db) = true := by
  induction l generalizing db with
  | nil => exact h
  | cons a t ih => exact ih _ (roomBoundsOk_releaseRoomSlot _ _ h)

theorem roomBoundsOk_execStmt (db : Db) (st : Stmt) (h : roomBoundsOk db = true) :
    roomBoundsOk (execStmt db st) = true := by
  cases st with
  | insertAlloc aid sid rid active expected =>
    dsimp only [execStmt]
    split
    · rename_i db' hok
      rcases insertAllocation_ok _ _ _ _ _ _ _ hok with ⟨-, -, db1, hu, rfl⟩ | ⟨-, rfl⟩
      · have hb := roomBoundsOk_updateRoomOcc db db1 rid (fun n => n + 1) h hu
        exact hb
      · exact h
    · exact h
  | deactivateStudent sid today =>
    show roomBoundsOk (deactivateStudentAllocations db sid today) = true
    unfold deactivateStudentAllocations
    have hb := foldl_release_bounds
      (db.allocations.filter fun a => a.studentId == sid && a.isActive) db h
    exact hb
  | deactivateById aid today =>
    show roomBoundsOk (deactivateAllocationById db aid today) = true
    unfold deactivateAllocationById
    split
    · exact h
    · rename_i a ha
      split
      · have hb := roomBoundsOk_releaseRoomSlot db a.roomId h
        exact hb
      · exact h
  | incOcc rid =>
    dsimp only [execStmt]
    split
    · rename_i db' hok
      exact roomBoundsOk_updateRoomOcc db db' rid (fun n => n + 1) h hok
    · exact h
  | decOcc rid =>
    exact roomBoundsOk_releaseRoomSlot db _ h
  | allocMeta aid expected => exact h

theorem length_filter_map_le (f : Allocation → Allocation) (p : Allocation → Bool)
    (l : List Allocation) (hf : ∀ a, p (f a) = true → p a = true) :
    ((l.map f).filter p).length ≤ (l.filter p).length := by
  induction l with
  | nil => simp
  | cons a t ih =>
    rw [List.map_cons, List.filter_cons, List.filter_cons]
    by_cases hpa : p (f a) = true
    · rw [if_pos hpa, if_pos (hf a hpa)]
      simpa using ih
    · rw [if_neg hpa]
      by_cases hpa2 : p a = true
      · rw [if_pos hpa2]
        exact Nat.le_succ_of_le ih
      · rw [if_neg hpa2]
        exact ih

theorem allocations_foldl_release (l : List Allocation) (db : Db) :
    (l.foldl (fun d a => releaseRoomSlot d a.roomId) db).allocations = db.allocations := by
  induction l generalizing db with
  | nil => rfl
  | cons a t ih => exact ih (releaseRoomSlot db a.roomId)

theorem activeCount_eq_zero_of_not_hasActive (db : Db) (s : Nat)
    (h : hasActiveAllocation db s = false) : activeCount db s = 0 := by
  unfold hasActiveAllocation at h
  unfold activeCount
  rw [List.length_eq_zero, List.filter_eq_nil_iff]
  intro a ha
  have := List.any_eq_false.mp h a ha
  simpa using this

theorem oneActiveB_spec (db : Db) (h : oneActivePerStudentB db = true) (s : Nat) :
    activeCount db s ≤ 1 := by
  unfold oneActivePerStudentB at h
  rw [List.all_eq_true] at h
  by_cases hz : activeCount db s = 0
  · omega
  · have hne : (db.allocations.filter fun a => a.studentId == s && a.isActive) ≠ [] := by
      intro he
      apply hz
      unfold activeCount
      rw [he]
      rfl
    obtain ⟨a, ha⟩ := List.exists_mem_of_ne_nil _ hne
    have hmem := List.mem_filter.mp ha
    have hpa := hmem.2
    rw [Bool.and_eq_true] at hpa
    have hsid : a.studentId = s := by simpa using hpa.1
    have hall := h a hmem.1
    rw [hpa.2] at hall
    simp only [Bool.not_true, Bool.false_or, decide_eq_true_eq] at hall
    rwa [hsid] at hall

theorem activeCount_le_execStmt (db : Db) (st : Stmt) (sid : Nat)
    (h : ∀ s, activeCount db s ≤ 1) :
    activeCount (execStmt db st) sid ≤ 1 := by
  cases st with
  | insertAlloc aid sid0 rid active expected =>
    dsimp only [execStmt]
    split
    · rename_i db' hok
      rcases insertAllocation_ok _ _ _ _ _ _ _ hok with
        ⟨hact, hno, db1, hu, rfl⟩ | ⟨hact, rfl⟩
      · have halloc := updateRoomOcc_ok_allocations db db1 rid (fun n => n + 1) hu
        unfold activeCount
        dsimp only
        rw [halloc, List.filter_append, List.length_append]
        by_cases hss : sid0 = sid
        · subst hss
          have hzero : activeCount db sid0 = 0 :=
            activeCount_eq_zero_of_not_hasActive db sid0 hno
          unfold activeCount at hzero
          rw [hzero]
          simpa using List.length_filter_le _
            [({ id := aid, studentId := sid0, roomId := rid, isActive := active,
                expectedCheckout := expected, actualCheckout := none } : Allocation)]
        · have hone : (List.filter (fun a => a.studentId == sid && a.isActive)
              [({ id := aid, studentId := sid0, roomId := rid, isActive := active,
                  expectedCheckout := expected, actualCheckout := none } : Allocation)]) = [] := by
            simp [hss]
          rw [hone]
          simpa using h sid
      · unfold activeCount
        dsimp only
        rw [List.filter_append, List.length_append]
        have hone : (List.filter (fun a => a.studentId == sid && a.isActive)
            [({ id := aid, studentId := sid0, roomId := rid, isActive := active,
                expectedCheckout := expected, actualCheckout := none } : Allocation)]) = [] := by
          simp [hact]
        rw [hone]
        simpa using h sid
    · exact h sid
  | deactivateStudent sid0 today =>
    show activeCount (deactivateStudentAllocations db sid0 today) sid ≤ 1
    unfold deactivateStudentAllocations
    unfold activeCount
    dsimp only
    rw [allocations_foldl_release]
    refine le_trans (length_filter_map_le _ _ _ ?_) (h sid)
    intro a hpa
    by_cases hm : (a.studentId == sid0 && a.isActive) = true
    · rw [if_pos hm] at hpa
      simp at hpa
    · rwa [if_neg hm] at hpa
  | deactivateById aid today =>
    show activeCount (deactivateAllocationById db aid today) sid ≤ 1
    unfold deactivateAllocationById
    split
    · exact h sid
    · rename_i a ha
      split
      · unfold activeCount
        dsimp only
        refine le_trans (length_filter_map_le _ _ _ ?_) (h sid)
        intro x hpx
        by_cases hm : (x.id == aid) = true
        · rw [if_pos hm] at hpx
          simp at hpx
        · rwa [if_neg hm] at hpx
      · unfold activeCount
        dsimp only
        refine le_trans (length_filter_map_le _ _ _ ?_) (h sid)
        intro x hpx
        by_cases hm : (x.id == aid) = true
        · rw [if_pos hm] at hpx
          simpa using hpx
        · rwa [if_neg hm] at hpx
  | incOcc rid =>
    dsimp only [execStmt]
    split
    · rename_i db' hok
      have halloc := updateRoomOcc_ok_allocations db db' rid (fun n => n + 1) hok
      unfold activeCount
      rw [halloc]
      exact h sid
    · exact h sid
  | decOcc rid =>
    exact h sid
  | allocMeta aid expected =>
    show activeCount (updateAllocationMeta db aid expected) sid ≤ 1
    unfold updateAllocationMeta
    unfold activeCount
    dsimp only
    refine le_trans (length_filter_map_le _ _ _ ?_) (h sid)
    intro x hpx
    by_cases hm : (x.id == aid) = true
    · rw [if_pos hm] at hpx
      simpa using hpx
    · rwa [if_neg hm] at hpx

theorem lcsc_fields (now : Nat) (o n : Complaint) :
    (logComplaintStatusChange now o n).1.id = n.id
    ∧ (logComplaintStatusChange now o n).1.status = n.status
    ∧ (logComplaintStatusChange now o n).1.assignedStaffId = n.assignedStaffId
    ∧ (logComplaintStatusChange now o n).1.resolutionNotes = n.resolutionNotes := by
  unfold logComplaintStatusChange
  split
  · dsimp only
    split
    · simp
    · split
      · simp
      · split
        · simp
        · simp
  · simp

theorem derivedNote_lcsc (now : Nat) (o n : Complaint) :
    derivedNote (logComplaintStatusChange now o n).1 = derivedNote n := by
  obtain ⟨-, h2, h3, h4⟩ := lcsc_fields now o n
  unfold derivedNote
  rw [h2, h3, h4]

theorem lcsc_of_ne (now : Nat) (o n : Complaint) (h : o.status ≠ n.status) :
    (logComplaintStatusChange now o n).2 =
      [{ complaintId := n.id, oldStatus := some o.status, newStatus := n.status,
         changedBy := "system", note := derivedNote n, changedAt := now }] := by
  unfold logComplaintStatusChange
  rw [if_pos (bne_iff_ne.mpr h)]

theorem lcsc_of_eq (now : Nat) (o n : Complaint) (h : o.status = n.status) :
    logComplaintStatusChange now o n = (n, []) := by
  unfold logComplaintStatusChange
  rw [if_neg (by simp [h])]

theorem activeCount_le_runStmts (db0 : Db) (l : List Stmt)
    (h0 : ∀ s, activeCount db0 s ≤ 1) :
    ∀ s, activeCount (runStmts db0 l) s ≤ 1 := by
  induction l generalizing db0 with
  | nil => exact h0
  | cons st t ih =>
    exact ih (execStmt db0 st) (fun s => activeCount_le_execStmt db0 st s h0)

/-! ## Claim theorems -/

/-- C1: starting from any state whose rooms satisfy
`0 ≤ current_occupancy ≤ capacity`, every state reachable by any sequence
of the statements the routes issue — including the states mid-way through
an assign or checkout — still satisfies the bounds for every room: the
trigger's guarded increment, its `GREATEST(0, n-1)` decrement, the
application-level `+ 1` (which the `check_occupancy` CHECK constraint
rejects, leaving the state unchanged, whenever it would overflow), and the
application-level `GREATEST(0, n-1)` all preserve them. -/
theorem occupancy_always_within_bounds (db0 db : Db)
    (h0 : roomBoundsOk db0 = true) (h : Reachable db0 db) :
    roomBoundsOk db = true := by
  obtain ⟨l, rfl⟩ := h
  induction l generalizing db0 with
  | nil => exact h0
  | cons s t ih => exact ih (execStmt db0 s) (roomBoundsOk_execStmt db0 s h0)

/-- Witness for `occupancy_always_within_bounds`: the statements of a full
assign-then-checkout run from the two-room state. -/
theorem occupancy_always_within_bounds_witness :
    roomBoundsOk exDbTwoRooms = true
    ∧ roomBoundsOk (runStmts exDbTwoRooms
        [Stmt.insertAlloc 1 1 1 true none, Stmt.incOcc 1,
         Stmt.deactivateById 1 5, Stmt.decOcc 1]) = true :=
  ⟨by decide,
    occupancy_always_within_bounds exDbTwoRooms _ (by decide)
      ⟨[Stmt.insertAlloc 1 1 1 true none, Stmt.incOcc 1,
        Stmt.deactivateById 1 5, Stmt.decOcc 1], rfl⟩⟩

/-- C2: starting from any state in which every student has at most one
active allocation (the property enforced by the `idx_one_active_allocation`
partial unique index), every state reachable by any sequence of route
statements — assign's deactivate-then-insert, checkout's deactivation, the
allocation metadata update, and the occupancy updates — keeps the number of
`is_active = true` allocation rows of every student at 0 or 1: the insert
is guarded by the partial unique index and the other statements only
deactivate or leave activity untouched. -/
theorem at_most_one_active_allocation (db0 db : Db)
    (h0 : oneActivePerStudentB db0 = true) (h : Reachable db0 db) (sid : Nat) :
    activeCount db sid ≤ 1 := by
  obtain ⟨l, rfl⟩ := h
  exact activeCount_le_runStmts db0 l (oneActiveB_spec db0 h0) sid

/-- Witness for `at_most_one_active_allocation`: the deactivate-then-insert
statements of a re-assignment from the full-room state. -/
theorem at_most_one_active_allocation_witness :
    oneActivePerStudentB exDbFullRoom = true
    ∧ activeCount (runStmts exDbFullRoom
        [Stmt.deactivateStudent 1 4, Stmt.insertAlloc 3 1 1 true none,
         Stmt.incOcc 1]) 1 ≤ 1 :=
  ⟨by decide,
    at_most_one_active_allocation exDbFullRoom _ (by decide)
      ⟨[Stmt.deactivateStudent 1 4, Stmt.insertAlloc 3 1 1 true none,
        Stmt.incOcc 1], rfl⟩ 1⟩

/-- C3: re-assigning a student from room A to room B succeeds and leaves
exactly one active allocation (in room B) and decrements room A by exactly
one — but room B's occupancy rises by 2, not 1: the `check_room_capacity`
trigger increments it at the INSERT and the route then runs its explicit
`current_occupancy + 1` UPDATE as well, even though the route's own comment
says the trigger maintains the counter.  Starting from two empty
capacity-2 rooms, one student assigned to room 1 and re-assigned to room 2
ends with room 2 at occupancy 2. -/
theorem assign_reassign_double_increments_roomB :
    exRun2.1 = AllocOutcome.created 2
    ∧ activeCount exRun2.2 1 = 1
    ∧ (exRun2.2.allocations.filter fun a => a.isActive).map (fun a => a.roomId) = [2]
    ∧ (findRoom exRun1.2 1).map (fun r => r.currentOccupancy) = some 2
    ∧ (findRoom exRun2.2 1).map (fun r => r.currentOccupancy) = some 1
    ∧ (findRoom exDbTwoRooms 2).map (fun r => r.currentOccupancy) = some 0
    ∧ (findRoom exRun2.2 2).map (fun r => r.currentOccupancy) = some 2 := by
  decide

/-- C5: checking out the same allocation twice succeeds once and then fails
with the distinguishable already-inactive error — but the single successful
checkout decrements the room's occupancy twice (the trigger's decrement on
deactivation plus the route's explicit `GREATEST(0, n-1)` UPDATE): a full
capacity-2 room with two active allocations drops from occupancy 2 to 0
after one checkout. -/
theorem checkout_twice_double_decrements :
    exCheckout1.1 = CheckoutOutcome.ok200
    ∧ exCheckout2.1 = CheckoutOutcome.alreadyInactive400
    ∧ (findRoom exDbFullRoom 1).map (fun r => r.currentOccupancy) = some 2
    ∧ (findRoom exCheckout1.2 1).map (fun r => r.currentOccupancy) = some 0
    ∧ exCheckout2.2 = exCheckout1.2 := by
  decide

/-- C6 counterexample: a complaint that is assigned at time 10, reopened at
time 20, and assigned again at time 30 ends with `assigned_at = 30` — the
trigger overwrites the timestamp on re-entering the status instead of
keeping the original value 10. -/
theorem assigned_at_overwritten_on_reentry :
    ((getComplaint exC6a 1).map fun c => c.assignedAt) = some (some 10)
    ∧ ((getComplaint exC6c 1).map fun c => c.assignedAt) = some (some 30) := by
  decide

/-- C8 counterexample: on a resolved complaint with staff 5 assigned, the
update `{status: assigned, assigned_staff_id: null}` is accepted (HTTP 200)
and leaves the complaint in status `assigned` with no assigned staff, so
the claimed equivalence — no update can leave `assigned` with no staff —
fails. -/
theorem update_leaves_assigned_without_staff :
    exC8run.1 = PutOutcome.ok200
    ∧ ((getComplaint exC8run.2 1).map fun c => (c.status, c.assignedStaffId))
        = some (CStatus.assigned, none) := by
  decide

/-- C9 counterexample: a complaint-creation request with priority 0 — an
out-of-range value the claim says is rejected — is accepted with HTTP 201
and inserts a row with priority 3, because JavaScript `priority || 3`
treats the supplied 0 as absent. -/
theorem priority_zero_not_rejected :
    exC9run.1 = ComplaintPostOutcome.created 1 3
    ∧ exC9run.2.complaints.map (fun c => c.priority) = [3] := by
  decide

/-- C4: when the requested room is at (or beyond) capacity, POST
/api/allocations answers the room-full error and returns the state
unchanged: the capacity check runs before the deactivation of the
student's prior allocation and before any insert, so nothing is written. -/
theorem assign_to_full_room_rejected (db : Db) (today sid rid : Nat)
    (expected : Option Nat) (student : Student) (room : Room) (h : Hostel)
    (hs : db.students.find? (fun s => s.id == sid && s.isActive) = some student)
    (hr : roomJoin db rid = some (room, h))
    (hfull : room.capacity ≤ room.currentOccupancy) :
    allocationsPOST db today sid rid expected
      = (AllocOutcome.badRequest AllocErr.roomFull, db) := by
  unfold allocationsPOST
  rw [hs, hr]
  dsimp only
  rw [if_pos hfull]

/-- Witness for `assign_to_full_room_rejected` at the full seed-style room. -/
theorem assign_to_full_room_rejected_witness :
    exDbFullRoom.students.find? (fun s => s.id == 1 && s.isActive)
        = some { id := 1, gender := .male, isActive := true }
    ∧ allocationsPOST exDbFullRoom 5 1 1 none
        = (AllocOutcome.badRequest AllocErr.roomFull, exDbFullRoom) :=
  ⟨by decide,
    assign_to_full_room_rejected exDbFullRoom 5 1 1 none
      { id := 1, gender := .male, isActive := true }
      { id := 1, hostelId := 1, capacity := 2, currentOccupancy := 2, isAvailable := true }
      { id := 1, genderAllowed := .male }
      (by decide) (by decide) (by decide)⟩

/-- C10: every analytics rate guards its zero denominator: the category
percentage with zero total complaints, the occupancy rate with zero total
capacity, and the monthly resolution rate with zero complaints in the
bucket all evaluate to 0 (and, the sums being total rational functions, no
NaN, infinity or exception can arise); in particular the overall occupancy
rate over a state with no rooms is 0. -/
theorem analytics_zero_denominators_yield_zero :
    (∀ total : Nat, categoryPercentage total 0 = 0)
    ∧ (∀ occ : ℚ, occupancyRate occ 0 = 0)
    ∧ (∀ rc : Nat, resolutionRate rc 0 = 0)
    ∧ (∀ db : Db, db.rooms = [] → overallOccupancyRate db = 0) := by
  refine ⟨fun total => ?_, fun occ => ?_, fun rc => ?_, fun db hdb => ?_⟩
  · simp [categoryPercentage]
  · simp [occupancyRate]
  · simp [resolutionRate]
  · simp [overallOccupancyRate, occupancyRate, totalCapacity, hdb]

/-- Witness for `analytics_zero_denominators_yield_zero` on the empty
database. -/
theorem analytics_zero_denominators_yield_zero_witness :
    exDbEmpty.rooms = [] ∧ overallOccupancyRate exDbEmpty = 0 :=
  ⟨rfl, analytics_zero_denominators_yield_zero.2.2.2 exDbEmpty rfl⟩

/-- C6 (amended): on every actual status change, the trigger stamps the
timestamp matching the newly entered status with the current time —
overwriting any previously stored value, so a complaint that re-enters a
status gets a fresh timestamp rather than keeping the original — and
leaves the other two timestamps as the UPDATE supplied them; when the
status does not change, the row (timestamps included) is stored exactly as
the UPDATE supplied it and no stamping happens. -/
theorem complaint_timestamps_on_status_change (now : Nat) (o n : Complaint) :
    (o.status ≠ n.status →
      (logComplaintStatusChange now o n).1.assignedAt
          = (if n.status = CStatus.assigned then some now else n.assignedAt)
      ∧ (logComplaintStatusChange now o n).1.resolvedAt
          = (if n.status = CStatus.resolved then some now else n.resolvedAt)
      ∧ (logComplaintStatusChange now o n).1.closedAt
          = (if n.status = CStatus.closed then some now else n.closedAt))
    ∧ (o.status = n.status → logComplaintStatusChange now o n = (n, [])) := by
  constructor
  · intro hne
    unfold logComplaintStatusChange
    rw [if_pos (bne_iff_ne.mpr hne)]
    dsimp only
    cases hn : n.status with
    | open_ => simp [hn]
    | assigned =>
      rw [hn] at hne
      simp [hn, bne_iff_ne, hne]
    | in_progress => simp [hn]
    | resolved =>
      rw [hn] at hne
      simp [hn, bne_iff_ne, hne]
    | closed =>
      rw [hn] at hne
      simp [hn, bne_iff_ne, hne]
  · exact lcsc_of_eq now o n

/-- Witness for `complaint_timestamps_on_status_change`: entering
`assigned` from `open` stamps `assigned_at` with the current time. -/
theorem complaint_timestamps_on_status_change_witness :
    exComplaintOpen.status ≠ exComplaintAssigned.status
    ∧ (logComplaintStatusChange 7 exComplaintOpen exComplaintAssigned).1.assignedAt
        = some 7 :=
  ⟨by decide, by
    have h := (complaint_timestamps_on_status_change 7 exComplaintOpen
      exComplaintAssigned).1 (by decide)
    simpa [exComplaintAssigned, exComplaintOpen] using h.1⟩

/-- C7: a ComplaintLog row is appended exactly when a complaint's status
actually changes: creation (POST /api/complaints) appends exactly one row
with a null old status and new status `open`; an update
(PUT /api/complaints/[id]) whose resulting status differs from the stored
one appends exactly one row carrying the old status, the new status, and
the derived note; an update whose resulting status is unchanged (e.g. a
priority-only change) appends no row. -/
theorem complaint_log_appended_iff_status_changed :
    (∀ (db : Db) (now sid rid : Nat) (cat : Category) (p : Option Int)
        (cid : Nat) (pr : Int) (db2 : Db),
      complaintsPOST db now sid rid cat p = (ComplaintPostOutcome.created cid pr, db2) →
      db2.complaintLogs = db.complaintLogs ++
        [{ complaintId := cid, oldStatus := none, newStatus := CStatus.open_,
           changedBy := "system", note := some "Complaint created", changedAt := now }])
    ∧ (∀ (db : Db) (now cid : Nat) (body : ComplaintPutBody) (db' : Db)
        (existing : Complaint),
      getComplaint db cid = some existing →
      complaintsPUT db now cid body = (PutOutcome.ok200, db') →
      ((putNewComplaint existing body).status ≠ existing.status →
        db'.complaintLogs = db.complaintLogs ++
          [{ complaintId := existing.id, oldStatus := some existing.status,
             newStatus := (putNewComplaint existing body).status,
             changedBy := "system",
             note := derivedNote (putNewComplaint existing body), changedAt := now }])
      ∧ ((putNewComplaint existing body).status = existing.status →
        db'.complaintLogs = db.complaintLogs)) := by
  constructor
  · intro db now sid rid cat p cid pr db2 hrun
    unfold complaintsPOST at hrun
    dsimp only at hrun
    split at hrun
    · cases hrun
    · split at hrun
      · cases hrun
      · split at hrun
        · cases hrun
        · injection hrun with h1 h2
          injection h1 with hcid hpr
          subst hcid
          subst h2
          rfl
  · intro db now cid body db' existing hfind hrun
    unfold complaintsPUT at hrun
    rw [hfind] at hrun
    dsimp only at hrun
    split at hrun
    · cases hrun
    · split at hrun
      · cases hrun
      · split at hrun
        · cases hrun
        · split at hrun
          · cases hrun
          · injection hrun with h1 h2
            subst h2
            constructor
            · intro hne
              dsimp only
              rw [lcsc_of_ne now existing (putNewComplaint existing body)
                (fun hh => hne hh.symm)]
              rfl
            · intro heq
              dsimp only
              rw [lcsc_of_eq now existing (putNewComplaint existing body) heq.symm]
              simp

/-- Witness for `complaint_log_appended_iff_status_changed`: a complaint
creation appends the single null-to-open audit row. -/
theorem complaint_log_appended_iff_status_changed_witness :
    (complaintsPOST exDbForComplaints 0 1 1 .electrical none).2.complaintLogs
      = exDbForComplaints.complaintLogs ++
        [{ complaintId := 1, oldStatus := none, newStatus := CStatus.open_,
           changedBy := "system", note := some "Complaint created", changedAt := 0 }] :=
  complaint_log_appended_iff_status_changed.1 exDbForComplaints 0 1 1
    .electrical none 1 3 _ (by decide)

/-- C8 (amended): the guard of PUT /api/complaints/[id] rejects — before
any write, returning the state unchanged — exactly the requests whose
status `assigned` differs from the stored status while the request
supplies no (truthy) staff id and the complaint has none stored; it does
not prevent an update from leaving a complaint in status `assigned` with
no staff (see the counterexample, which nulls the staff field). -/
theorem assigned_status_requires_staff_guard (db : Db) (now cid : Nat)
    (body : ComplaintPutBody) (existing : Complaint)
    (hfind : getComplaint db cid = some existing)
    (hst : body.status = some CStatus.assigned)
    (hne : existing.status ≠ CStatus.assigned)
    (hstaff : staffTruthy body.staffField = false)
    (hcur : optStaffFalsy existing.assignedStaffId = true) :
    complaintsPUT db now cid body = (PutOutcome.missingAssignment, db) := by
  have hw : wantsStatusChange existing body = true := by
    unfold wantsStatusChange
    rw [hst]
    exact bne_iff_ne.mpr (fun hh => hne hh.symm)
  unfold complaintsPUT
  rw [hfind]
  dsimp only
  rw [if_pos (by simp [hw, hst, hstaff, hcur])]

/-- Witness for `assigned_status_requires_staff_guard`: requesting
`assigned` on the staffless open complaint is rejected with the state
unchanged. -/
theorem assigned_status_requires_staff_guard_witness :
    getComplaint exDbComplaint 1 = some exComplaintOpen
    ∧ complaintsPUT exDbComplaint 11 1 { status := some .assigned }
        = (PutOutcome.missingAssignment, exDbComplaint) :=
  ⟨by decide,
    assigned_status_requires_staff_guard exDbComplaint 11 1
      { status := some .assigned } exComplaintOpen
      (by decide) rfl (by decide) rfl rfl⟩

/-- C9 (amended): a supplied priority outside [1,5] is rejected with a
validation error before any write — except a supplied priority of 0,
which JavaScript `priority || 3` treats as absent, so 0 is silently
replaced by the default 3; an omitted priority likewise yields 3. -/
theorem priority_validation_with_js_zero_default (db : Db) (now sid rid : Nat)
    (cat : Category) (p : Int) :
    (p ≠ 0 → p < 1 ∨ 5 < p →
      complaintsPOST db now sid rid cat (some p)
        = (ComplaintPostOutcome.validationError, db))
    ∧ (∀ (cid : Nat) (pr : Int) (db2 : Db),
        complaintsPOST db now sid rid cat none
          = (ComplaintPostOutcome.created cid pr, db2) → pr = 3)
    ∧ (∀ (cid : Nat) (pr : Int) (db2 : Db),
        complaintsPOST db now sid rid cat (some 0)
          = (ComplaintPostOutcome.created cid pr, db2) → pr = 3) := by
  refine ⟨?_, ?_, ?_⟩
  · intro hp hout
    have hfp : jsOrDefault3 (some p) = p := by
      unfold jsOrDefault3
      dsimp only
      rw [if_neg (by simpa using hp)]
    unfold complaintsPOST
    dsimp only
    rw [hfp, if_pos hout]
  · intro cid pr db2 hrun
    unfold complaintsPOST at hrun
    dsimp only at hrun
    split at hrun
    · rename_i hbad
      exact absurd hbad (by decide)
    · split at hrun
      · cases hrun
      · split at hrun
        · cases hrun
        · injection hrun with h1 h2
          injection h1 with hcid hpr
          exact hpr.symm
  · intro cid pr db2 hrun
    unfold complaintsPOST at hrun
    dsimp only at hrun
    split at hrun
    · rename_i hbad
      exact absurd hbad (by decide)
    · split at hrun
      · cases hrun
      · split at hrun
        · cases hrun
        · injection hrun with h1 h2
          injection h1 with hcid hpr
          exact hpr.symm

/-- Witness for `priority_validation_with_js_zero_default`: priority 6 is
rejected with the state unchanged. -/
theorem priority_validation_with_js_zero_default_witness :
    (6 : Int) ≠ 0 ∧ ((6 : Int) < 1 ∨ (5 : Int) < 6)
    ∧ complaintsPOST exDbForComplaints 0 1 1 .electrical (some 6)
        = (ComplaintPostOutcome.validationError, exDbForComplaints) :=
  ⟨by decide, by decide,
    (priority_validation_with_js_zero_default exDbForComplaints 0 1 1
      .electrical 6).1 (by decide) (by decide)⟩

end HostelMgmt
